import Mathlib

/-!
Shallow embedding of the HireMatch shortlisting backend
(`app/services/ai_service.py`, `app/services/text_extractor.py`,
`app/services/shortlist_service.py`, `app/api/shortlist.py`, `app/models.py`)
and proofs about the specified behaviour of these operations.

Conventions of the embedding:
* Python floats that only ever flow through comparisons are modelled as `Rat`.
* Fallible Python code returns `Except PyExc`; an uncaught Python exception is
  the `.error` case.
* External collaborators (the embedding/completion provider, the regular
  expression engine, the document-format libraries) are passed in as explicit
  oracle arguments holding exactly the data the source reads from them.
-/

namespace HireMatch

/-- Python exception classes that appear in the modelled code paths. -/
inductive PyExc where
  | valueError (msg : String)
  | typeError (msg : String)
  | attributeError (msg : String)
  | other (msg : String)
deriving DecidableEq, Repr

/-- A parsed JSON value, the result type of Python's `json.loads`.
Numbers are modelled as rationals (irrelevant to every claim below). -/
inductive JsonValue where
  | null
  | bool (b : Bool)
  | num (q : Rat)
  | str (s : String)
  | arr (elems : List JsonValue)
  | obj (fields : List (String × JsonValue))

/-- Lookup of the `recommendation` field of an analysis result, `none` when
the value is not a dict or lacks the key. -/
def recommendationOf (v : JsonValue) : Option JsonValue :=
  match v with
  | JsonValue.obj kvs => List.lookup "recommendation" kvs
  | _ => none

/-- Whether a JSON value is an array. -/
def isArr : JsonValue → Bool
  | JsonValue.arr _ => true
  | _ => false

/-- Whether a JSON value is the complete structured analysis shape promised by
the spec (§4.3): a dict carrying all of `match_summary`, `strengths`, `gaps`,
`reasoning` and `recommendation`, with `strengths` and `gaps` being lists. -/
def isCompleteStructured (v : JsonValue) : Bool :=
  match v with
  | JsonValue.obj kvs =>
      (List.lookup "match_summary" kvs).isSome
      && ((List.lookup "strengths" kvs).map isArr).getD false
      && ((List.lookup "gaps" kvs).map isArr).getD false
      && (List.lookup "reasoning" kvs).isSome
      && (List.lookup "recommendation" kvs).isSome
  | _ => false

/-- The Python float literal `0.5` of `ai_service.py` line 80, as the reduced
rational 1/2 (written with an explicit numerator and denominator so that
comparisons against it evaluate by kernel reduction). -/
def half : Rat := ⟨1, 2, by decide, by decide⟩

/-- Stated once for readability: `half` is one half. -/
theorem half_eq : half = 1/2 := by
  rw [half, Rat.mk'_eq_divInt, Rat.divInt_eq_div]; norm_num

/-- Rendering of the similarity score inside the fallback strings
(Python formats it as `f"{score:.2f}"`; the exact text is irrelevant to every
claim, only its presence is modelled). -/
def scoreText (score : Rat) : String := toString score

/-- The deterministic fallback dict built by the `except` branch of
`AIService.analyze_cv_match` (`ai_service.py` lines 74-81). -/
def fallback_analysis (score : Rat) (errMsg : String) : JsonValue :=
  JsonValue.obj
    [ ("match_summary", JsonValue.str ("Analysis based on similarity score of " ++ scoreText score)),
      ("strengths", JsonValue.arr [JsonValue.str "Content analysis unavailable"]),
      ("gaps", JsonValue.arr [JsonValue.str "Content analysis unavailable"]),
      ("reasoning", JsonValue.str ("Assessment based on similarity score. AI analysis failed: " ++ errMsg)),
      ("recommendation", JsonValue.str (if half < score then "Consider" else "Reject")) ]

/-- Outcome of one completion-provider round trip as seen by
`analyze_cv_match`'s `try` block: the call raises, or it returns a body whose
`json.loads` either fails (`response none`) or yields a JSON value
(`response (some v)`). -/
inductive ProviderOutcome where
  | failure (msg : String)
  | response (parsed : Option JsonValue)

/-- Whether the provider outcome takes the analyzer down its degraded path
(the chat call raised, or its body was not valid JSON). -/
def providerDegraded : ProviderOutcome → Bool
  | ProviderOutcome.failure _ => true
  | ProviderOutcome.response none => true
  | ProviderOutcome.response (some _) => false

/-- Model of `AIService.analyze_cv_match` (`ai_service.py` lines 30-81).  The `try`
block calls the completion provider and parses its body with `json.loads`,
returning the parsed value unvalidated; every exception in the block (provider
failure or a JSON parse error) lands in the `except` branch, which returns
`fallback_analysis`.  The prompt built from `cv_content` and `job_description`
only flows into the provider call, which the oracle argument stands for. -/
def analyze_cv_match (cv_content job_description : String) (score : Rat)
    (provider : ProviderOutcome) : JsonValue :=
  match provider with
  | ProviderOutcome.failure msg => fallback_analysis score msg
  | ProviderOutcome.response none => fallback_analysis score "Expecting value: line 1 column 1 (char 0)"
  | ProviderOutcome.response (some v) => v

/-! Section: text extraction (`text_extractor.py`). -/

/-- Model of Python `content.split(sep)` for a one-character separator:
cut at every occurrence, keeping empty pieces. -/
def splitChAux (sep : Char) : List Char → List Char → List String
  | [], acc => [String.mk acc.reverse]
  | c :: rest, acc =>
      if c = sep then String.mk acc.reverse :: splitChAux sep rest []
      else splitChAux sep rest (c :: acc)

/-- Python `content.split('\n')`. -/
def pySplitLines (s : String) : List String := splitChAux '\n' s.toList []

/-- Python `str.strip()`: drop leading and trailing whitespace. -/
def pyStrip (s : String) : String :=
  String.mk (((s.toList.dropWhile Char.isWhitespace).reverse.dropWhile Char.isWhitespace).reverse)

/-- The per-line test of `TextExtractor._extract_candidate_name`
(`text_extractor.py` lines 54-58): strip the line; accept it when it is truthy
(non-empty), its length lies strictly between 2 and 100, and no character is a
digit; the accepted value is the stripped line. -/
def nameCandidate (line : String) : Option String :=
  let l := pyStrip line
  if !(l == "") && decide (2 < l.length) && decide (l.length < 100) && !(l.toList.any Char.isDigit)
  then some l else none

/-- Model of `TextExtractor._extract_candidate_name` (`text_extractor.py` lines 51-59):
iterate over the first 10 elements of `content.split('\n')` (raw lines, blank
ones included) and return the first acceptable one, else `None`. -/
def extract_candidate_name (content : String) : Option String :=
  ((pySplitLines content).take 10).findSome? nameCandidate

/-- Recognized upload extensions dispatched by `TextExtractor.extract_text`
(`text_extractor.py` lines 9-19). -/
inductive FileExt where
  | txt
  | docx
  | pdf
  | other (ext : String)

/-- The candidate name produced by `TextExtractor.extract_text` for a document
whose library-extracted text is `content`: `_extract_txt` (lines 21-25)
returns `None` for the name without scanning, `_extract_docx` and
`_extract_pdf` (lines 27-49) call `_extract_candidate_name`, and any other
extension raises `ValueError`. -/
def extracted_candidate_name (ext : FileExt) (content : String) :
    Except PyExc (Option String) :=
  match ext with
  | FileExt.txt => Except.ok none
  | FileExt.docx => Except.ok (extract_candidate_name content)
  | FileExt.pdf => Except.ok (extract_candidate_name content)
  | FileExt.other e => Except.error (PyExc.valueError ("Unsupported file type: " ++ e))

/-- The candidate-name rule as the specification words it (§4.1): "scan the
first 10 non-empty lines; return the first line between 3 and 99 characters
that contains no digit, else null", stated for every recognized extension.
This definition follows the spec's words and is compared against the
source-derived `extract_candidate_name`. -/
def candidate_name_spec (content : String) : Option String :=
  ((((pySplitLines content).map pyStrip).filter (fun l => !(l == ""))).take 10).findSome?
    nameCandidate

/-- Python `s[a:b]` slicing on strings (for `0 ≤ a ≤ b`). -/
def pySlice (s : String) (a b : Nat) : String :=
  String.mk ((s.toList.drop a).take (b - a))

/-- Python `phone.startswith('+1')`. -/
def startsWithPlus1 (s : String) : Bool :=
  match s.toList with
  | '+' :: '1' :: _ => true
  | _ => false

/-- One `re.findall` match of the phone pattern
`(\+?1?[-.\s]?)?\(?([0-9]{3})\)?[-.\s]?([0-9]{3})[-.\s]?([0-9]{4})`:
the four capture groups, in order (group 1 may include the trailing
separator it matched, e.g. `"+1"`, `"1-"` or `""`). -/
structure PhoneGroups where
  g1 : String
  g2 : String
  g3 : String
  g4 : String

/-- The phone normalization of `TextExtractor._extract_contact_info`
(`text_extractor.py` lines 76-80): join the four groups and reslice. -/
def normalize_phone (g : PhoneGroups) : String :=
  let phone := g.g1 ++ g.g2 ++ g.g3 ++ g.g4
  if startsWithPlus1 phone then
    "+1-" ++ pySlice phone 2 3 ++ "-" ++ pySlice phone 3 6 ++ "-" ++ pySlice phone 6 10
  else
    "+1-" ++ pySlice phone 0 3 ++ "-" ++ pySlice phone 3 6 ++ "-" ++ pySlice phone 6 10

/-- The contact dict built by `_extract_contact_info`; both fields optional. -/
structure ContactInfo where
  email : Option String
  phone : Option String
deriving DecidableEq, Repr

/-- Model of `TextExtractor._extract_contact_info` (`text_extractor.py` lines 61-82),
taking the regex engine's outputs as arguments: `emails` is
`re.findall(email_pattern, content)` and `phones` is
`re.findall(phone_pattern, content)` (a list of 4-tuples of capture groups).
The first email (if any) is stored verbatim, the first phone match (if any)
is normalized, and the dict collapses to `None` when both are absent. -/
def extract_contact_info (emails : List String) (phones : List PhoneGroups) :
    Option ContactInfo :=
  let email := emails.head?
  let phone := (phones.head?).map normalize_phone
  match email, phone with
  | none, none => none
  | e, p => some { email := e, phone := p }

/-- Whether a string has the display shape `+1-XXX-XXX-XXXX` promised by the
spec: four dash-separated fields `+1`, three digits, three digits, four
digits. -/
def isPhoneFormat (s : String) : Bool :=
  match splitChAux '-' s.toList [] with
  | [a, b, c, d] =>
      a == "+1" && b.length == 3 && b.toList.all Char.isDigit
        && c.length == 3 && c.toList.all Char.isDigit
        && d.length == 4 && d.toList.all Char.isDigit
  | _ => false

/-! Section: data model rows (`app/models.py`) and the orchestrator
(`ShortlistService.run_shortlisting`, `shortlist_service.py` lines 64-119). -/

/-- A `job_descriptions` row (`models.py` lines 25-37); only the columns the
modelled code reads. -/
structure JobDescriptionRow where
  id : String
  clientId : String
  content : String
deriving DecidableEq, Repr

/-- A `cvs` row (`models.py` lines 40-53); only the columns the modelled code
reads.  Note the model declares `client_id`, not `user_id`. -/
structure CVRow where
  id : String
  clientId : String
  content : String
deriving DecidableEq, Repr

/-- A `shortlists` row (`models.py` lines 56-67). -/
structure ShortlistRow where
  id : String
  clientId : String
  jobDescriptionId : String
  threshold : Rat
deriving DecidableEq, Repr

/-- A `shortlist_results` row (`models.py` lines 70-84).  `shortlistId` is the
nullable foreign key `shortlist_id`; the payload columns are typed by the
schema (Text/JSON/String), carried here as JSON values. -/
structure ResultRow where
  shortlistId : Option String
  cvId : String
  score : Rat
  matchSummary : JsonValue
  strengths : JsonValue
  gaps : JsonValue
  reasoning : JsonValue
  recommendation : JsonValue

/-- The committed contents of the two tables a shortlisting run writes. -/
structure DBState where
  shortlists : List ShortlistRow
  results : List ResultRow

/-- The `ShortlistReport` pydantic response object (`schemas.py`), as
`run_shortlisting` is declared to return and as the endpoint serializes on
success.  No code path of the repository ever constructs one (see
`run_shortlisting` below and the arity failure at the endpoint). -/
structure ShortlistReport where
  jobDescription : JobDescriptionRow
  shortlisted : List ResultRow
  rejected : List ResultRow
  threshold : Rat
  totalCandidates : Nat
  shortlistedCount : Nat
  rejectedCount : Nat

/-- The attribute access `CV.user_id` in the query at `shortlist_service.py`
line 67.  The `CV` model (`models.py` lines 40-53) defines a `client_id`
column but no `user_id`, so evaluating `CV.user_id` on the declarative class
raises `AttributeError` before the query is even built, whatever the
arguments of the call.  The value the query would have produced is the
`Except` payload type. -/
def cvUserIdAttribute : Except PyExc (List CVRow) :=
  Except.error (PyExc.attributeError "type object CV has no attribute user_id")

/-- Model of `ShortlistService.run_shortlisting` (`shortlist_service.py`
lines 64-119) called with its declared arity `(user_id, job_description_id,
threshold, db)`.  `jd?` is the result of the `JobDescription` query at
line 66 (the `User` query of line 65 executes and is discarded).  Line 67
then evaluates `CV.user_id`, which raises `AttributeError` unconditionally —
see `cvUserIdAttribute` — so the method propagates that error with the
database untouched.  Everything after line 67 is dead code with no execution
to model: the `ValueError` guard for a missing job description or empty
candidate set (lines 69-70), the job-embedding call (line 72), the
`Shortlist(user_id=...)` construction (lines 74-78, itself an invalid
keyword for a model that only has `client_id`), the commit at line 80, the
candidate loop with its `similarity >= threshold` classification
(lines 82-107), the second commit (line 109) and the report assembly
(lines 111-119).  The `.ok` branch below is therefore unreachable
(`cvUserIdAttribute` is an error by definition). -/
def run_shortlisting (db : DBState) (jd? : Option JobDescriptionRow)
    (user_id job_description_id : String) (threshold : Rat) :
    DBState × Except PyExc ShortlistReport :=
  match cvUserIdAttribute with
  | Except.error e => (db, Except.error e)
  | Except.ok _ =>
      (db, Except.error (PyExc.other "unreachable: line 67 always raises"))

/-! Section: the `POST /shortlist` endpoint (`app/api/shortlist.py` lines 43-98). -/

/-- The request body schema `ShortlistCreate` (`schemas.py`): `threshold`
defaults to 0.6; `cv_ids` has no emptiness or ownership constraint of its
own. -/
structure ShortlistCreate where
  threshold : Rat
  job_description_id : String
  cv_ids : List String

/-- Application state visible to the endpoint: the two ownership-checked
tables plus the tables the service writes. -/
structure ApiState where
  jobs : List JobDescriptionRow
  cvs : List CVRow
  db : DBState

/-- An HTTP outcome of the endpoint: a serialized report, or an
`HTTPException` with its status code and detail. -/
inductive HttpResponse where
  | report (r : ShortlistReport)
  | error (status : Nat) (detail : String)

/-- The job-ownership query of `api/shortlist.py` lines 53-56. -/
def findClientJob (st : ApiState) (client_id jid : String) : Option JobDescriptionRow :=
  st.jobs.find? (fun j => j.id == jid && j.clientId == client_id)

/-- The CV-ownership query plus comprehension of lines 65-70: ids of the
caller's CVs that occur in the requested list. -/
def clientCvIds (st : ApiState) (client_id : String) (ids : List String) : List String :=
  (st.cvs.filter (fun c => c.clientId == client_id && ids.contains c.id)).map (fun c => c.id)

/-- The set difference of line 73: requested ids that did not resolve to a
CV of the caller (membership test only; Python builds a set). -/
def invalidCvIds (st : ApiState) (client_id : String) (ids : List String) : List String :=
  ids.filter (fun i => !(clientCvIds st client_id ids).contains i)

/-- Python positional-argument binding for a method with `params` declared
positional parameters (no defaults, no varargs) called with `args` positional
arguments: a `TypeError` unless the counts agree. -/
def bindPositional (params args : Nat) : Except PyExc Unit :=
  if args = params then Except.ok ()
  else Except.error (PyExc.typeError
    "ShortlistService.run_shortlisting() takes 5 positional arguments but 6 were given")

/-- Positional parameters of `ShortlistService.run_shortlisting` besides
`self`: `user_id`, `job_description_id`, `threshold`, `db`
(`shortlist_service.py` line 64). -/
def run_shortlisting_param_count : Nat := 4

/-- Positional arguments the endpoint passes besides `self`:
`client.client_id`, `shortlist_data.job_description_id`,
`shortlist_data.cv_ids`, `shortlist_data.threshold`, `db`
(`api/shortlist.py` lines 81-87). -/
def create_shortlist_arg_count : Nat := 5

/-- The `try` block body of `create_shortlist` (lines 80-88): the call into
`shortlist_service.run_shortlisting`.  Binding five positional arguments to a
method declaring four raises `TypeError` before the method body runs, so the
`.ok` branch of the binding is unreachable (4 ≠ 5 by computation) and no
report is ever produced. -/
def tryRunShortlisting : Except PyExc ShortlistReport :=
  match bindPositional run_shortlisting_param_count create_shortlist_arg_count with
  | Except.error e => Except.error e
  | Except.ok _ => Except.error (PyExc.other "unreachable: argument binding succeeded")

/-- The exception mapping of `create_shortlist` (lines 89-98): `ValueError`
becomes 400 with its message, any other exception becomes 500. -/
def exceptionToResponse : Except PyExc ShortlistReport → HttpResponse
  | Except.ok r => HttpResponse.report r
  | Except.error (PyExc.valueError m) => HttpResponse.error 400 m
  | Except.error (PyExc.typeError m) =>
      HttpResponse.error 500 ("Error creating shortlist: " ++ m)
  | Except.error (PyExc.attributeError m) =>
      HttpResponse.error 500 ("Error creating shortlist: " ++ m)
  | Except.error (PyExc.other m) =>
      HttpResponse.error 500 ("Error creating shortlist: " ++ m)

/-- Model of `create_shortlist` (`api/shortlist.py` lines 43-98), after authentication
resolved `client_id`.  Ownership checks mirror lines 53-78 (the 404 detail
strings are kept constant; the source interpolates the offending ids into the
second one).  The returned state is unchanged in every branch because the
service call raises at argument binding before reaching any database
write. -/
def create_shortlist (st : ApiState) (client_id : String) (body : ShortlistCreate) :
    ApiState × HttpResponse :=
  match findClientJob st client_id body.job_description_id with
  | none => (st, HttpResponse.error 404 "Job description not found or not accessible")
  | some _ =>
    match invalidCvIds st client_id body.cv_ids with
    | _ :: _ => (st, HttpResponse.error 404 "CVs not found or not accessible")
    | [] => (st, exceptionToResponse tryRunShortlisting)

/-! Section: the delete endpoint (`api/shortlist.py` lines 168-191). -/

/-- Response of the delete endpoint. -/
inductive DeleteResponse where
  | ok (message : String)
  | error (status : Nat) (detail : String)
deriving DecidableEq, Repr

/-- Effect of `db.delete(shortlist); db.commit()` under this `models.py`:
the `Shortlist.results` relationship (line 67) configures no delete cascade
and `ShortlistResult.shortlist_id` (line 74) is a nullable foreign key, so
SQLAlchemy's default relationship cascade deletes the parent row and nulls
out the children's foreign key — the child rows are kept.  No other table is
touched. -/
def db_delete_shortlist (st : ApiState) (sid : String) : ApiState :=
  { st with db :=
      { shortlists := st.db.shortlists.filter (fun s => !(s.id == sid))
        results := st.db.results.map (fun r =>
          if r.shortlistId == some sid then { r with shortlistId := none } else r) } }

/-- Model of `delete_shortlist` (`api/shortlist.py` lines 168-191): look the shortlist
up by id and caller, 404 when absent, otherwise delete and report success. -/
def delete_shortlist (st : ApiState) (client_id sid : String) : ApiState × DeleteResponse :=
  match st.db.shortlists.find? (fun s => s.id == sid && s.clientId == client_id) with
  | none => (st, DeleteResponse.error 404 "Shortlist not found")
  | some _ => (db_delete_shortlist st sid, DeleteResponse.ok "Shortlist deleted successfully")

/-! Section: concrete fixtures used by witnesses and counterexamples.
Rational literals are written with explicit numerator/denominator so the
fixture runs evaluate by kernel reduction. -/

/-- The rational 0.6. -/
def q06 : Rat := ⟨3, 5, by decide, by decide⟩

/-- The rational 0.7. -/
def q07 : Rat := ⟨7, 10, by decide, by decide⟩

/-- Stated once for readability: the fixture rationals are the decimals they
claim to be. -/
theorem q_eq : q06 = 6/10 ∧ q07 = 7/10 := by
  refine ⟨?_, ?_⟩
  · rw [q06, Rat.mk'_eq_divInt, Rat.divInt_eq_div]; norm_num
  · rw [q07, Rat.mk'_eq_divInt, Rat.divInt_eq_div]; norm_num

/-- A job description owned by client `c1`. -/
def jdW : JobDescriptionRow := { id := "j1", clientId := "c1", content := "backend engineer role" }

/-- A CV owned by client `c1`. -/
def cvW1 : CVRow := { id := "cv1", clientId := "c1", content := "first cv" }

/-- A second CV owned by client `c1`. -/
def cvW2 : CVRow := { id := "cv2", clientId := "c1", content := "second cv" }

/-- The shortlist row the `shortlists` table of the delete fixture holds. -/
def srowW : ShortlistRow :=
  { id := "s1", clientId := "c1", jobDescriptionId := "j1", threshold := q06 }

/-! Section: claims C2, C5, C6 at the service level. -/

/-- C2: every invocation of `run_shortlisting` fails before its first
database write and returns the database exactly as it was, so no run — in
particular no failing run — ever leaves a partial Shortlist or
ShortlistResult row persisted: the all-or-nothing postcondition holds (and
holds trivially, because the `AttributeError` at line 67 precedes every
write the method would make). -/
theorem failed_runs_leave_no_rows (db : DBState) (jd? : Option JobDescriptionRow)
    (user_id job_description_id : String) (threshold : Rat) :
    run_shortlisting db jd? user_id job_description_id threshold
      = (db, Except.error (PyExc.attributeError "type object CV has no attribute user_id")) :=
  rfl

/-- C5: evaluation at a concrete invocation with the declared arity.  The
classification of `shortlist_service.py` lines 104-107 is dead code:
`run_shortlisting` raises `AttributeError` at line 67 before resolving any
candidate set, so no candidate of any run is ever classified against the
threshold, for or against the claim's inclusive boundary rule. -/
theorem classification_is_dead_code :
    run_shortlisting ⟨[], []⟩ (some jdW) "c1" "j1" q06
      = (⟨[], []⟩,
         Except.error (PyExc.attributeError "type object CV has no attribute user_id")) :=
  rfl

/-- C6: no invocation of `run_shortlisting` ever returns a report, so no run
produces the report whose counts and partitions the claim describes — every
run fails with the line-67 `AttributeError` and an unchanged database. -/
theorem no_report_is_ever_produced (db : DBState) (jd? : Option JobDescriptionRow)
    (user_id job_description_id : String) (threshold : Rat) :
    run_shortlisting db jd? user_id job_description_id threshold
      = (db, Except.error (PyExc.attributeError "type object CV has no attribute user_id"))
    ∧ ∀ r : ShortlistReport,
        (run_shortlisting db jd? user_id job_description_id threshold).2 ≠ Except.ok r := by
  refine ⟨rfl, ?_⟩
  intro r h
  rw [show (run_shortlisting db jd? user_id job_description_id threshold).2
        = Except.error (PyExc.attributeError "type object CV has no attribute user_id")
      from rfl] at h
  exact Except.noConfusion h

/-! Section: claims C1, C3, C7 at the endpoint level. -/

/-- Application state for the endpoint fixtures: client `c1` owns job `j1`
and CV `cv1`; no shortlist rows exist yet. -/
def st0 : ApiState := { jobs := [jdW], cvs := [cvW1], db := { shortlists := [], results := [] } }

/-- A well-formed request body naming the owned job and CV. -/
def body0 : ShortlistCreate := { threshold := q06, job_description_id := "j1", cv_ids := ["cv1"] }

/-- Endpoint fixture with two owned CVs. -/
def st1 : ApiState :=
  { jobs := [jdW], cvs := [cvW1, cvW2], db := { shortlists := [], results := [] } }

/-- A request asking for a shortlist over both owned CVs. -/
def body1 : ShortlistCreate :=
  { threshold := q06, job_description_id := "j1", cv_ids := ["cv1", "cv2"] }

/-- A request whose `cv_ids` list is empty. -/
def bodyEmpty : ShortlistCreate := { threshold := q06, job_description_id := "j1", cv_ids := [] }

/-- The detail string of the 500 answer produced by the arity failure. -/
def arity500detail : String :=
  "Error creating shortlist: " ++
    "ShortlistService.run_shortlisting() takes 5 positional arguments but 6 were given"

/-- C3: for every authenticated request whose job and CV ownership checks
both pass, `create_shortlist` answers 500 (the service call binds five
positional arguments to a four-parameter method and raises `TypeError`) and
leaves the state unchanged — it never returns a `ShortlistReport`. -/
theorem create_shortlist_ownership_ok_returns_500 (st : ApiState) (client_id : String)
    (body : ShortlistCreate)
    (hjob : (findClientJob st client_id body.job_description_id).isSome = true)
    (hcvs : invalidCvIds st client_id body.cv_ids = []) :
    create_shortlist st client_id body = (st, HttpResponse.error 500 arity500detail) := by
  unfold create_shortlist
  cases hj : findClientJob st client_id body.job_description_id with
  | none => rw [hj] at hjob; exact absurd hjob (by simp)
  | some j => rw [hcvs]; rfl

/-- C3 witness: the concrete owned job/CV request passes both checks and is
answered 500. -/
theorem create_shortlist_500_witness :
    (findClientJob st0 "c1" body0.job_description_id).isSome = true
    ∧ invalidCvIds st0 "c1" body0.cv_ids = []
    ∧ create_shortlist st0 "c1" body0 = (st0, HttpResponse.error 500 arity500detail) :=
  ⟨rfl, rfl, create_shortlist_ownership_ok_returns_500 st0 "c1" body0 rfl rfl⟩

/-- C1: evaluation of the endpoint at a request that passes every ownership
check with two candidate CV ids.  The claimed postcondition (one new
Shortlist row, `len(cv_ids)` new ShortlistResult rows) fails: the call into
`run_shortlisting` raises `TypeError` at argument binding, the request is
answered 500, and zero rows of either table are created. -/
theorem run_invocation_arity_creates_no_rows :
    create_shortlist st1 "c1" body1 = (st1, HttpResponse.error 500 arity500detail)
    ∧ (create_shortlist st1 "c1" body1).1.db.shortlists.length = 0
    ∧ (create_shortlist st1 "c1" body1).1.db.results.length = 0 := ⟨rfl, rfl, rfl⟩

/-- C7 counterexample: a request with an empty `cv_ids` list passes both
ownership checks (the invalid-id difference of two empty sets is empty) and
is then answered 500 by the arity `TypeError` — not the claimed
NoCandidates/ValidationError (which the endpoint maps to 400); zero rows are
created. -/
theorem empty_cv_ids_request_returns_500 :
    create_shortlist st0 "c1" bodyEmpty = (st0, HttpResponse.error 500 arity500detail)
    ∧ (create_shortlist st0 "c1" bodyEmpty).1.db.shortlists.length = 0 := ⟨rfl, rfl⟩

/-- C7 as amended: a request with an empty `cv_ids` list is not rejected by
any validation — it passes both ownership checks (the invalid-id set
difference over an empty list is empty) and the endpoint then answers the
500 of the arity `TypeError`, never a NoCandidates/ValidationError (which
the endpoint would map to 400); the state, and with it both tables, is
returned unchanged, so zero rows are created.  The service's own
empty-candidate `ValueError` guard (`shortlist_service.py` lines 69-70) is
unreachable: line 67 raises `AttributeError` before any candidate set is
resolved. -/
theorem empty_cv_ids_fails_500_not_validation (st : ApiState) (client_id jid : String)
    (t : Rat)
    (hjob : (findClientJob st client_id jid).isSome = true) :
    invalidCvIds st client_id [] = []
    ∧ create_shortlist st client_id { threshold := t, job_description_id := jid, cv_ids := [] }
        = (st, HttpResponse.error 500 arity500detail) := by
  refine ⟨rfl, ?_⟩
  unfold create_shortlist
  cases hj : findClientJob st client_id jid with
  | none => rw [hj] at hjob; exact absurd hjob (by simp)
  | some j =>
      simp only [hj]
      rfl

/-- C7 amended witness: the concrete empty-`cv_ids` request against the
owned job `j1`. -/
theorem empty_cv_ids_fails_500_witness :
    (findClientJob st0 "c1" "j1").isSome = true
    ∧ (invalidCvIds st0 "c1" [] = []
       ∧ create_shortlist st0 "c1" { threshold := q06, job_description_id := "j1", cv_ids := [] }
           = (st0, HttpResponse.error 500 arity500detail)) :=
  ⟨rfl, empty_cv_ids_fails_500_not_validation st0 "c1" "j1" q06 rfl⟩

/-! Section: claim C4, the analyzer fallback. -/

/-- C4 counterexample: when the completion call succeeds and its body parses
as the JSON array `[]`, `analyze_cv_match` returns that array unvalidated —
not a complete structured result, and with no recommendation at all, even
though the score 0.7 exceeds 0.5. -/
theorem analyze_parsed_json_returned_unvalidated :
    analyze_cv_match "cv text" "job text" q07 (ProviderOutcome.response (some (JsonValue.arr [])))
      = JsonValue.arr []
    ∧ isCompleteStructured (JsonValue.arr []) = false
    ∧ recommendationOf (JsonValue.arr []) = none := ⟨rfl, rfl, rfl⟩

/-- C4 as amended: `analyze_cv_match` is total (never raises), and on the
degraded path — provider failure or a JSON parse failure — it returns the
complete structured fallback whose recommendation is `"Consider"` iff
`score > 0.5` and `"Reject"` otherwise (`ai_service.py` lines 74-81). -/
theorem analyze_degraded_path_complete_and_rule (cv job : String) (score : Rat)
    (p : ProviderOutcome) (h : providerDegraded p = true) :
    isCompleteStructured (analyze_cv_match cv job score p) = true
    ∧ (recommendationOf (analyze_cv_match cv job score p) = some (JsonValue.str "Consider")
        ↔ half < score)
    ∧ (recommendationOf (analyze_cv_match cv job score p) = some (JsonValue.str "Reject")
        ↔ ¬ half < score) := by
  have hrec : ∀ m : String,
      recommendationOf (fallback_analysis score m)
        = some (JsonValue.str (if half < score then "Consider" else "Reject")) :=
    fun m => rfl
  cases p with
  | failure m =>
      refine ⟨rfl, ?_, ?_⟩ <;>
        · rw [show analyze_cv_match cv job score (ProviderOutcome.failure m)
              = fallback_analysis score m from rfl, hrec]
          by_cases hlt : half < score <;> simp [hlt]
  | response parsed =>
      cases parsed with
      | none =>
          refine ⟨rfl, ?_, ?_⟩ <;>
            · rw [show analyze_cv_match cv job score (ProviderOutcome.response none)
                  = fallback_analysis score "Expecting value: line 1 column 1 (char 0)" from rfl,
                hrec]
              by_cases hlt : half < score <;> simp [hlt]
      | some v => exact absurd h (by simp [providerDegraded])

/-- C4 amended witness: the theorem applied to a concrete provider failure at
score 0.7 (so the fallback recommends "Consider"). -/
theorem analyze_degraded_witness :
    providerDegraded (ProviderOutcome.failure "boom") = true
    ∧ (isCompleteStructured (analyze_cv_match "cv" "job" q07 (ProviderOutcome.failure "boom")) = true
       ∧ (recommendationOf (analyze_cv_match "cv" "job" q07 (ProviderOutcome.failure "boom"))
            = some (JsonValue.str "Consider") ↔ half < q07)
       ∧ (recommendationOf (analyze_cv_match "cv" "job" q07 (ProviderOutcome.failure "boom"))
            = some (JsonValue.str "Reject") ↔ ¬ half < q07)) :=
  ⟨rfl, analyze_degraded_path_complete_and_rule "cv" "job" q07 (ProviderOutcome.failure "boom") rfl⟩

/-! Section: claim C8, delete semantics. -/

/-- A persisted result row that is a child of shortlist `s1`. -/
def rrW : ResultRow :=
  { shortlistId := some "s1", cvId := "cv1", score := q07,
    matchSummary := JsonValue.str "", strengths := JsonValue.arr [],
    gaps := JsonValue.arr [], reasoning := JsonValue.str "",
    recommendation := JsonValue.str "Consider" }

/-- State with one shortlist of client `c1` and one child result row. -/
def st8 : ApiState :=
  { jobs := [jdW], cvs := [cvW1],
    db := { shortlists := [srowW], results := [rrW] } }

/-- C8 counterexample: deleting shortlist `s1` deletes the `shortlists` row
but keeps its child `shortlist_results` row — the child is orphaned with a
null `shortlist_id`, not removed, because the model configures no delete
cascade. -/
theorem delete_shortlist_retains_child_results :
    delete_shortlist st8 "c1" "s1"
      = ({ jobs := [jdW], cvs := [cvW1],
           db := { shortlists := [], results := [{ rrW with shortlistId := none }] } },
         DeleteResponse.ok "Shortlist deleted successfully")
    ∧ (delete_shortlist st8 "c1" "s1").1.db.results.length = 1 := ⟨rfl, rfl⟩

/-- C8 as amended: deleting a Shortlist removes at most that one `shortlists`
row; its `shortlist_results` children are retained with their foreign key set
to null (none is removed), results not referencing it are unchanged, and the
`job_descriptions` and `cvs` tables are untouched. -/
theorem delete_shortlist_frame_effects (st : ApiState) (client_id sid : String)
    (st' : ApiState) (resp : DeleteResponse)
    (h : delete_shortlist st client_id sid = (st', resp)) :
    st'.jobs = st.jobs
    ∧ st'.cvs = st.cvs
    ∧ st'.db.results.length = st.db.results.length
    ∧ (∀ r ∈ st.db.results, r.shortlistId ≠ some sid → r ∈ st'.db.results)
    ∧ (∀ r ∈ st'.db.results, ∃ r0 ∈ st.db.results,
         r = r0 ∨ (r0.shortlistId = some sid ∧ r = { r0 with shortlistId := none }))
    ∧ (∀ s ∈ st'.db.shortlists, s ∈ st.db.shortlists)
    ∧ (∀ s ∈ st.db.shortlists, s.id ≠ sid → s ∈ st'.db.shortlists) := by
  unfold delete_shortlist at h
  split at h
  · injection h with h1 h2
    subst h1
    refine ⟨rfl, rfl, rfl, fun r hr _ => hr, fun r hr => ⟨r, hr, Or.inl rfl⟩,
      fun s hs => hs, fun s hs _ => hs⟩
  · injection h with h1 h2
    subst h1
    refine ⟨rfl, rfl, by simp [db_delete_shortlist], ?_, ?_, ?_, ?_⟩
    · intro r hr hrid
      simp only [db_delete_shortlist, List.mem_map]
      refine ⟨r, hr, ?_⟩
      have : (r.shortlistId == some sid) = false := by
        simpa using hrid
      simp [this]
    · intro r hr
      simp only [db_delete_shortlist, List.mem_map] at hr
      obtain ⟨r0, hr0, hmap⟩ := hr
      refine ⟨r0, hr0, ?_⟩
      by_cases hc : r0.shortlistId = some sid
      · right
        refine ⟨hc, ?_⟩
        rw [← hmap]
        simp [hc]
      · left
        rw [← hmap]
        have : (r0.shortlistId == some sid) = false := by simpa using hc
        simp [this]
    · intro s hs
      simp only [db_delete_shortlist, List.mem_filter] at hs
      exact hs.1
    · intro s hs hid
      simp only [db_delete_shortlist, List.mem_filter]
      refine ⟨hs, ?_⟩
      simpa using hid

/-- C8 amended witness: the theorem applied to the concrete delete of `s1`. -/
theorem delete_shortlist_frame_witness :
    (delete_shortlist st8 "c1" "s1").1.jobs = st8.jobs
    ∧ (delete_shortlist st8 "c1" "s1").1.cvs = st8.cvs
    ∧ (delete_shortlist st8 "c1" "s1").1.db.results.length = st8.db.results.length
    ∧ (∀ r ∈ st8.db.results, r.shortlistId ≠ some "s1" →
         r ∈ (delete_shortlist st8 "c1" "s1").1.db.results)
    ∧ (∀ r ∈ (delete_shortlist st8 "c1" "s1").1.db.results, ∃ r0 ∈ st8.db.results,
         r = r0 ∨ (r0.shortlistId = some "s1" ∧ r = { r0 with shortlistId := none }))
    ∧ (∀ s ∈ (delete_shortlist st8 "c1" "s1").1.db.shortlists, s ∈ st8.db.shortlists)
    ∧ (∀ s ∈ st8.db.shortlists, s.id ≠ "s1" →
         s ∈ (delete_shortlist st8 "c1" "s1").1.db.shortlists) :=
  delete_shortlist_frame_effects st8 "c1" "s1" (delete_shortlist st8 "c1" "s1").1
    (delete_shortlist st8 "c1" "s1").2 rfl

/-! Section: claims C9 and C10, text extraction heuristics. -/

/-- Characterization of a first-hit scan: `findSome? f` returns `some b` iff
the list splits into a prefix on which `f` misses, an element `f` maps to
`b`, and a remainder. -/
theorem findSome?_eq_some_iff {α β : Type} (f : α → Option β) (l : List α) (b : β) :
    l.findSome? f = some b ↔
      ∃ pre x rest, l = pre ++ x :: rest ∧ f x = some b ∧ ∀ y ∈ pre, f y = none := by
  induction l with
  | nil =>
      constructor
      · intro h
        rw [List.findSome?_nil] at h
        exact Option.noConfusion h
      · rintro ⟨pre, x, rest, hl, -, -⟩
        exact absurd hl (by simp)
  | cons a t ih =>
      cases hfa : f a with
      | some v =>
          rw [List.findSome?_cons]
          rw [hfa]
          constructor
          · intro h
            exact ⟨[], a, t, by simp, by rw [hfa]; exact h, by simp⟩
          · rintro ⟨pre, x, rest, hl, hx, hpre⟩
            cases pre with
            | nil =>
                simp only [List.nil_append, List.cons.injEq] at hl
                rw [← hl.1] at hx
                rw [← hx, hfa]
            | cons p ps =>
                have hpa : p = a := by
                  simpa using congrArg (fun xs => List.head? xs) hl.symm
                have : f a = none := hpa ▸ hpre p (List.Mem.head ps)
                rw [hfa] at this
                exact Option.noConfusion this
      | none =>
          rw [List.findSome?_cons]
          rw [hfa]
          rw [ih]
          constructor
          · rintro ⟨pre, x, rest, hl, hx, hpre⟩
            refine ⟨a :: pre, x, rest, by rw [hl]; rfl, hx, ?_⟩
            intro y hy
            cases hy with
            | head => exact hfa
            | tail _ hy' => exact hpre y hy'
          · rintro ⟨pre, x, rest, hl, hx, hpre⟩
            cases pre with
            | nil =>
                simp only [List.nil_append, List.cons.injEq] at hl
                rw [← hl.1] at hx
                rw [hfa] at hx
                exact Option.noConfusion hx
            | cons p ps =>
                simp only [List.cons_append, List.cons.injEq] at hl
                refine ⟨ps, x, rest, hl.2, hx, ?_⟩
                intro y hy
                exact hpre y (List.Mem.tail p hy)

/-- Ten blank lines followed by a digit-free name: the source scans only the
ten blank lines; the spec's "first 10 non-empty lines" reading finds the
name. -/
def blankThenName : String := "\n\n\n\n\n\n\n\n\n\nJohn Smith"

/-- C9 counterexample: two divergences from the claim at concrete documents.
First, the source iterates over the first 10 raw lines (blank lines consume
scan slots), so a name on line 11 after ten blank lines is missed although it
is the first non-empty line; second, plain-text (`.txt`) extraction never
scans for a name at all, returning null even when a qualifying line exists.
The spec-worded `candidate_name_spec` returns the name in both cases. -/
theorem candidate_name_heuristic_differs_from_spec :
    extract_candidate_name blankThenName = none
    ∧ candidate_name_spec blankThenName = some "John Smith"
    ∧ extracted_candidate_name FileExt.txt "John Smith" = Except.ok none
    ∧ candidate_name_spec "John Smith" = some "John Smith" := ⟨rfl, rfl, rfl, rfl⟩

/-- C9 as amended: for `.docx`/`.pdf` extractions the candidate name is the
first of the first 10 raw lines of the text whose stripped form is non-empty,
3 to 99 characters long and digit-free (blank lines among the first 10 still
consume scan slots), and null when no such line exists among them; `.txt`
extractions always carry a null candidate name. -/
theorem candidate_name_first_ten_raw_lines (content : String) :
    extracted_candidate_name FileExt.txt content = Except.ok none
    ∧ extracted_candidate_name FileExt.docx content = Except.ok (extract_candidate_name content)
    ∧ extracted_candidate_name FileExt.pdf content = Except.ok (extract_candidate_name content)
    ∧ (∀ name : String,
        extract_candidate_name content = some name ↔
          ∃ pre line rest,
            (pySplitLines content).take 10 = pre ++ line :: rest
            ∧ nameCandidate line = some name
            ∧ ∀ l ∈ pre, nameCandidate l = none) :=
  ⟨rfl, rfl, rfl, fun name => findSome?_eq_some_iff nameCandidate _ name⟩

/-- C10: evaluation of the contact extractor at the failing input.  For a
document containing the token `+15551234567`, the regex groups are
`("+1", "555", "123", "4567")`; the joined match starts with `+1`, and the
normalization at `text_extractor.py` line 78 slices one digit for the area
code and truncates the number, storing `"+1-5-551-2345"` — not the claimed
`+1-XXX-XXX-XXXX` shape (which `"+1-555-123-4567"` would have).  The
null-iff-nothing-found half of the claim does hold. -/
theorem phone_normalization_malformed_for_plus1 :
    extract_contact_info [] [{ g1 := "+1", g2 := "555", g3 := "123", g4 := "4567" }]
      = some { email := none, phone := some "+1-5-551-2345" }
    ∧ isPhoneFormat "+1-5-551-2345" = false
    ∧ isPhoneFormat "+1-555-123-4567" = true
    ∧ extract_contact_info [] [] = none
    ∧ extract_contact_info ["a@b.co"] []
        = some { email := some "a@b.co", phone := none } := ⟨rfl, rfl, rfl, rfl, rfl⟩

end HireMatch
